import Mathlib

/-!
Verification of the Dual-AI-Chat discussion orchestrator (src/App.tsx,
src/constants.ts).  Text is modelled as `List Char`; the JavaScript string
operations used by the source (`trim`, `lastIndexOf`, `endsWith`, `includes`,
`substring`, global literal `replace`) are defined below and the orchestrator
logic is embedded as executable Lean functions over them.
-/

set_option maxHeartbeats 1600000

namespace DualAIChat

/-- Whitespace recognised by JavaScript `String.prototype.trim` (the code
points that occur in practice: ASCII whitespace, NBSP and the BOM). -/
def isJsWhitespace (c : Char) : Bool :=
  c == ' ' || c == '\t' || c == '\n' || c == '\r' || c == '\x0b' || c == '\x0c' ||
    c == ' ' || c == '﻿'

/-- JavaScript `s.trim()`: drop leading and trailing whitespace. -/
def trimChars (l : List Char) : List Char :=
  ((l.dropWhile isJsWhitespace).reverse.dropWhile isJsWhitespace).reverse

/-- `pat` occurs in `l` starting at position `i`. -/
def occursAt (l pat : List Char) (i : ℕ) : Bool :=
  pat.isPrefixOf (l.drop i)

/-- JavaScript `l.lastIndexOf(pat)` for non-empty `pat`: the largest position
at which `pat` occurs, or `none` (JS: `-1`) when it does not occur. -/
def lastIndexOf (l pat : List Char) : Option ℕ :=
  ((List.range (l.length + 1)).filter (occursAt l pat)).getLast?

/-- JavaScript `l.includes(pat)`. -/
def containsSub (l pat : List Char) : Bool :=
  (List.range (l.length + 1)).any (occursAt l pat)

/-- One left-to-right pass deleting non-overlapping occurrences of `pat`;
`fuel` bounds the recursion (a pass over `l` consumes at least one character
per step for non-empty `pat`, so `fuel = l.length` suffices). -/
def removeAllAux (pat : List Char) : ℕ → List Char → List Char
  | _, [] => []
  | 0, l => l
  | fuel + 1, c :: rest =>
    if pat.isPrefixOf (c :: rest) then removeAllAux pat fuel ((c :: rest).drop pat.length)
    else c :: removeAllAux pat fuel rest

/-- JavaScript `l.replace(new RegExp(escapedPat, 'g'), "")`: every literal
occurrence of `pat` is removed in a single left-to-right scan (the regex is
built from the escaped marker, so matching is exact-literal). -/
def removeAll (pat l : List Char) : List Char :=
  removeAllAux pat l.length l

/-- src/constants.ts line 73. -/
def NOTEPAD_UPDATE_TAG_START : List Char := ("<notepad_update>").data

/-- src/constants.ts line 74. -/
def NOTEPAD_UPDATE_TAG_END : List Char := ("</notepad_update>").data

/-- src/constants.ts line 76. -/
def DISCUSSION_COMPLETE_TAG : List Char := ("<discussion_complete />").data

/-- src/constants.ts line 87. -/
def MAX_AUTO_RETRIES : ℕ := 2

/-- Result type of `parseAIResponse` (src/App.tsx lines 31-35); the TS
`string | null` notepad field becomes `Option (List Char)`. -/
structure ParsedAIResponse where
  spokenText : List Char
  newNotepadContent : Option (List Char)
  discussionShouldEnd : Bool
deriving DecidableEq

/-- Notepad-block extraction stage of `parseAIResponse` (src/App.tsx lines
63-75): last occurrences of both markers, the end marker strictly after the
start marker, and the trimmed text must end exactly with the end marker;
then the spoken text is the trimmed text before the start marker and the
update is the trimmed text between the markers.  JS `substring` would swap
its endpoints if `start > end`, but the only `<` inside either marker is its
first character, so the last start occurrence always lies at least one whole
start marker before the last end occurrence and no swap can occur. -/
def splitNotepad (currentText : List Char) : List Char × Option (List Char) :=
  match lastIndexOf currentText NOTEPAD_UPDATE_TAG_START,
        lastIndexOf currentText NOTEPAD_UPDATE_TAG_END with
  | some notepadStartIndex, some notepadEndIndex =>
    if notepadStartIndex < notepadEndIndex ∧
        NOTEPAD_UPDATE_TAG_END.isSuffixOf currentText = true then
      (trimChars (currentText.take notepadStartIndex),
       some (trimChars ((currentText.take notepadEndIndex).drop
         (notepadStartIndex + NOTEPAD_UPDATE_TAG_START.length))))
    else (currentText, none)
  | _, _ => (currentText, none)

/-- Completion-marker stage of `parseAIResponse` (src/App.tsx lines 77-81):
if the marker occurs anywhere in the spoken text, remove all literal
occurrences, trim, and signal the end of the discussion. -/
def scrubDiscussionTag (spokenText : List Char) : List Char × Bool :=
  if containsSub spokenText DISCUSSION_COMPLETE_TAG = true then
    (trimChars (removeAll DISCUSSION_COMPLETE_TAG spokenText), true)
  else (spokenText, false)

/-- Placeholder stage of `parseAIResponse` (src/App.tsx lines 83-93).
`notepadActionTaken` mirrors the truthiness test `if (newNotepadContent)` of
line 70 (an empty-string update counts as no action there), while the second
branch tests `newNotepadContent === null` exactly as line 91 does. -/
def finalizeSpoken (spokenText : List Char) (newNotepadContent : Option (List Char))
    (discussionShouldEnd : Bool) : List Char :=
  let notepadActionTaken : Bool :=
    match newNotepadContent with
    | some c => !c.isEmpty
    | none => false
  if (trimChars spokenText).isEmpty && (notepadActionTaken || discussionShouldEnd) then
    if notepadActionTaken && discussionShouldEnd then
      ("(AI 更新了记事本并建议结束讨论)").data
    else if notepadActionTaken then ("(AI 更新了记事本)").data
    else ("(AI 建议结束讨论)").data
  else if (trimChars spokenText).isEmpty && newNotepadContent.isNone && !discussionShouldEnd then
    ("(AI 未提供额外文本回复)").data
  else spokenText

/-- `parseAIResponse` (src/App.tsx lines 54-96): trim, extract the notepad
block, scrub the completion marker, synthesize placeholders, and trim the
final spoken text. -/
def parseAIResponse (responseText : List Char) : ParsedAIResponse :=
  let currentText := trimChars responseText
  let np := splitNotepad currentText
  let sc := scrubDiscussionTag np.1
  { spokenText := trimChars (finalizeSpoken sc.1 np.2 sc.2)
    newNotepadContent := np.2
    discussionShouldEnd := sc.2 }

/-- Failing input for C4: a response that is exactly a notepad block whose
inner content trims to the empty string. -/
def c4FailingInput : List Char := ("<notepad_update>   </notepad_update>").data

/-- C4: the claim says parse always returns non-empty spokenText, synthesizing
a placeholder whenever the extracted spoken text is empty.  The code violates
this: on a response that is exactly a notepad block with blank inner content,
the update is the empty string (so the `if (newNotepadContent)` placeholder
guard sees no action) yet it is not `null` (so the generic-placeholder guard
of line 91 also fails), and parse returns an empty spokenText together with an
applied empty-string notepad update — a blank transcript turn. -/
theorem c4_blank_turn_despite_notepad_update :
    (parseAIResponse c4FailingInput).spokenText = [] ∧
    (parseAIResponse c4FailingInput).newNotepadContent = some [] := by
  constructor <;> rfl

/-- Counterexample input for C3: a well-formed notepad block whose inner
content trims to the empty string, preceded by non-empty spoken text. -/
def c3CounterexampleInput : List Char := ("Hi<notepad_update>   </notepad_update>").data

/-- C3 counterexample: this input satisfies the claim's hypotheses (its
trimmed form ends exactly with the end marker and the last start-marker
occurrence precedes the last end-marker occurrence) and its inner text trims
to empty, so the claim says notepadUpdate is null; the code instead returns
the empty string (which callers treat as a real update, `!== null`). -/
theorem c3_empty_inner_update_is_not_null :
    lastIndexOf (trimChars c3CounterexampleInput) NOTEPAD_UPDATE_TAG_START = some 2 ∧
    lastIndexOf (trimChars c3CounterexampleInput) NOTEPAD_UPDATE_TAG_END = some 21 ∧
    NOTEPAD_UPDATE_TAG_END.isSuffixOf (trimChars c3CounterexampleInput) = true ∧
    (parseAIResponse c3CounterexampleInput).newNotepadContent ≠ none ∧
    (parseAIResponse c3CounterexampleInput).newNotepadContent = some [] := by
  refine ⟨by decide, by decide, by decide, ?_, rfl⟩
  intro h
  exact absurd h (by decide)

/-- `trimChars` is right-trimming after left-trimming, in Mathlib vocabulary. -/
theorem trimChars_eq_rdropWhile (l : List Char) :
    trimChars l = (l.dropWhile isJsWhitespace).rdropWhile isJsWhitespace := rfl

/-- A list with no leading match keeps that property on every prefix. -/
theorem dropWhile_eq_self_of_isPrefix {p : Char → Bool} {l l2 : List Char}
    (h : l.dropWhile p = l) (hp : l2 <+: l) : l2.dropWhile p = l2 := by
  cases l2 with
  | nil => rfl
  | cons a t =>
    obtain ⟨r, rfl⟩ := hp
    have h0 := (List.dropWhile_eq_self_iff).mp h (by simp)
    simp only [List.cons_append, List.get] at h0
    rw [List.dropWhile_cons, if_neg h0]

/-- Trimming is idempotent. -/
theorem trimChars_idem (l : List Char) : trimChars (trimChars l) = trimChars l := by
  rw [trimChars_eq_rdropWhile, trimChars_eq_rdropWhile]
  rw [dropWhile_eq_self_of_isPrefix (List.dropWhile_idempotent _ _)
    (List.rdropWhile_prefix _ _), List.rdropWhile_idempotent]

/-- Boolean emptiness of a known-non-empty list. -/
theorem isEmpty_false_of_ne_nil {x : List Char} (h : x ≠ []) : x.isEmpty = false := by
  cases x with
  | nil => exact absurd rfl h
  | cons a t => rfl

/-- The placeholder stage leaves a spoken text alone when its trim is
non-empty. -/
theorem finalizeSpoken_of_nonempty {spoken : List Char} {np : Option (List Char)}
    {ended : Bool} (h : (trimChars spoken).isEmpty = false) :
    finalizeSpoken spoken np ended = spoken := by
  rw [finalizeSpoken.eq_def]
  simp [h]

/-- C3 (amended): for every raw text whose trimmed form ends exactly with the
notepad end marker, whose last start-marker occurrence precedes its last
end-marker occurrence, and whose trimmed text before the last start marker is
non-empty and free of the discussion-completion marker, parse returns that
trimmed prefix as spokenText and `some` of the trimmed text between the
markers as notepadUpdate — the empty string rather than null when the inner
text is empty. -/
theorem c3_valid_block_extraction (raw : List Char) (si ei : ℕ)
    (hs : lastIndexOf (trimChars raw) NOTEPAD_UPDATE_TAG_START = some si)
    (he : lastIndexOf (trimChars raw) NOTEPAD_UPDATE_TAG_END = some ei)
    (hlt : si < ei)
    (hend : NOTEPAD_UPDATE_TAG_END.isSuffixOf (trimChars raw) = true)
    (hne : trimChars ((trimChars raw).take si) ≠ [])
    (hfree : containsSub (trimChars ((trimChars raw).take si)) DISCUSSION_COMPLETE_TAG = false) :
    (parseAIResponse raw).spokenText = trimChars ((trimChars raw).take si) ∧
    (parseAIResponse raw).newNotepadContent =
      some (trimChars (((trimChars raw).take ei).drop
        (si + NOTEPAD_UPDATE_TAG_START.length))) := by
  have hsplit : splitNotepad (trimChars raw) =
      (trimChars ((trimChars raw).take si),
       some (trimChars (((trimChars raw).take ei).drop
         (si + NOTEPAD_UPDATE_TAG_START.length)))) := by
    rw [splitNotepad, hs, he]
    exact if_pos ⟨hlt, hend⟩
  have hscrub : scrubDiscussionTag (trimChars ((trimChars raw).take si)) =
      (trimChars ((trimChars raw).take si), false) := by
    rw [scrubDiscussionTag, if_neg (by simp [hfree])]
  have hfin : finalizeSpoken (trimChars ((trimChars raw).take si))
      (some (trimChars (((trimChars raw).take ei).drop
        (si + NOTEPAD_UPDATE_TAG_START.length)))) false
      = trimChars ((trimChars raw).take si) :=
    finalizeSpoken_of_nonempty (by rw [trimChars_idem]; exact isEmpty_false_of_ne_nil hne)
  constructor
  · simp only [parseAIResponse, hsplit, hscrub, hfin]
    exact trimChars_idem _
  · simp only [parseAIResponse, hsplit]

/-- Concrete input exercising the amended C3. -/
def c3WitnessInput : List Char := ("Hello <notepad_update> X </notepad_update>").data

/-- Witness for the amended C3 at a concrete input. -/
theorem c3_valid_block_extraction_witness :
    lastIndexOf (trimChars c3WitnessInput) NOTEPAD_UPDATE_TAG_START = some 6 ∧
    lastIndexOf (trimChars c3WitnessInput) NOTEPAD_UPDATE_TAG_END = some 25 ∧
    6 < 25 ∧
    NOTEPAD_UPDATE_TAG_END.isSuffixOf (trimChars c3WitnessInput) = true ∧
    trimChars ((trimChars c3WitnessInput).take 6) ≠ [] ∧
    containsSub (trimChars ((trimChars c3WitnessInput).take 6)) DISCUSSION_COMPLETE_TAG = false ∧
    ((parseAIResponse c3WitnessInput).spokenText = trimChars ((trimChars c3WitnessInput).take 6) ∧
     (parseAIResponse c3WitnessInput).newNotepadContent =
       some (trimChars (((trimChars c3WitnessInput).take 25).drop
         (6 + NOTEPAD_UPDATE_TAG_START.length)))) :=
  ⟨by decide, by decide, by decide, by decide, by decide, by decide,
   c3_valid_block_extraction c3WitnessInput 6 25 (by decide) (by decide) (by decide)
     (by decide) (by decide) (by decide)⟩

/-- C10: for a raw text ending in a valid notepad block, endSignal is derived
only from the text before the block: when the completion marker does not occur
in that spoken part, endSignal is false even when the marker occurs inside the
block content, and the marker remains, unremoved, in the returned update. -/
theorem c10_marker_only_inside_block (raw : List Char) (si ei : ℕ)
    (hs : lastIndexOf (trimChars raw) NOTEPAD_UPDATE_TAG_START = some si)
    (he : lastIndexOf (trimChars raw) NOTEPAD_UPDATE_TAG_END = some ei)
    (hlt : si < ei)
    (hend : NOTEPAD_UPDATE_TAG_END.isSuffixOf (trimChars raw) = true)
    (hfree : containsSub (trimChars ((trimChars raw).take si)) DISCUSSION_COMPLETE_TAG = false)
    (hin : containsSub (trimChars (((trimChars raw).take ei).drop
      (si + NOTEPAD_UPDATE_TAG_START.length))) DISCUSSION_COMPLETE_TAG = true) :
    (parseAIResponse raw).discussionShouldEnd = false ∧
    ∃ u, (parseAIResponse raw).newNotepadContent = some u ∧
      containsSub u DISCUSSION_COMPLETE_TAG = true := by
  have hsplit : splitNotepad (trimChars raw) =
      (trimChars ((trimChars raw).take si),
       some (trimChars (((trimChars raw).take ei).drop
         (si + NOTEPAD_UPDATE_TAG_START.length)))) := by
    rw [splitNotepad, hs, he]
    exact if_pos ⟨hlt, hend⟩
  have hscrub : scrubDiscussionTag (trimChars ((trimChars raw).take si)) =
      (trimChars ((trimChars raw).take si), false) := by
    rw [scrubDiscussionTag, if_neg (by simp [hfree])]
  refine ⟨?_, trimChars (((trimChars raw).take ei).drop
    (si + NOTEPAD_UPDATE_TAG_START.length)), ?_, hin⟩
  · simp only [parseAIResponse, hsplit, hscrub]
  · simp only [parseAIResponse, hsplit]

/-- Concrete input exercising C10. -/
def c10WitnessInput : List Char :=
  ("Hi<notepad_update>A <discussion_complete /> B</notepad_update>").data

/-- Witness for C10 at a concrete input. -/
theorem c10_marker_only_inside_block_witness :
    lastIndexOf (trimChars c10WitnessInput) NOTEPAD_UPDATE_TAG_START = some 2 ∧
    lastIndexOf (trimChars c10WitnessInput) NOTEPAD_UPDATE_TAG_END = some 45 ∧
    2 < 45 ∧
    NOTEPAD_UPDATE_TAG_END.isSuffixOf (trimChars c10WitnessInput) = true ∧
    containsSub (trimChars ((trimChars c10WitnessInput).take 2)) DISCUSSION_COMPLETE_TAG = false ∧
    containsSub (trimChars (((trimChars c10WitnessInput).take 45).drop
      (2 + NOTEPAD_UPDATE_TAG_START.length))) DISCUSSION_COMPLETE_TAG = true ∧
    ((parseAIResponse c10WitnessInput).discussionShouldEnd = false ∧
     ∃ u, (parseAIResponse c10WitnessInput).newNotepadContent = some u ∧
       containsSub u DISCUSSION_COMPLETE_TAG = true) :=
  ⟨by decide, by decide, by decide, by decide, by decide, by decide,
   c10_marker_only_inside_block c10WitnessInput 2 45 (by decide) (by decide) (by decide)
     (by decide) (by decide) (by decide)⟩

/-- C8: endSignal equals the occurrence of the completion marker anywhere in
the extracted spoken text (not suffix-restricted), and when it occurs the
spoken text is produced from the single left-to-right removal of all literal
occurrences of the marker (`removeAll`, exact-literal matching), trimmed and
run through the placeholder stage. -/
theorem c8_completion_marker_scrub (raw : List Char) :
    (parseAIResponse raw).discussionShouldEnd =
      containsSub (splitNotepad (trimChars raw)).1 DISCUSSION_COMPLETE_TAG ∧
    (containsSub (splitNotepad (trimChars raw)).1 DISCUSSION_COMPLETE_TAG = true →
      (parseAIResponse raw).spokenText =
        trimChars (finalizeSpoken
          (trimChars (removeAll DISCUSSION_COMPLETE_TAG (splitNotepad (trimChars raw)).1))
          (splitNotepad (trimChars raw)).2 true)) := by
  by_cases hc : containsSub (splitNotepad (trimChars raw)).1 DISCUSSION_COMPLETE_TAG = true
  · have hscrub : scrubDiscussionTag (splitNotepad (trimChars raw)).1 =
        (trimChars (removeAll DISCUSSION_COMPLETE_TAG (splitNotepad (trimChars raw)).1),
         true) := by
      rw [scrubDiscussionTag, if_pos hc]
    constructor
    · simp only [parseAIResponse, hscrub, hc]
    · intro _
      simp only [parseAIResponse, hscrub]
  · have hc2 : containsSub (splitNotepad (trimChars raw)).1 DISCUSSION_COMPLETE_TAG = false := by
      simpa using hc
    have hscrub : scrubDiscussionTag (splitNotepad (trimChars raw)).1 =
        ((splitNotepad (trimChars raw)).1, false) := by
      rw [scrubDiscussionTag, if_neg hc]
    constructor
    · simp only [parseAIResponse, hscrub, hc2]
    · intro h
      exact absurd h hc

/-- Concrete input exercising C8: the marker sits in the middle of the spoken
text, not as a suffix. -/
def c8WitnessInput : List Char := ("A <discussion_complete /> B").data

/-- Witness for C8 at a concrete input. -/
theorem c8_completion_marker_scrub_witness :
    containsSub (splitNotepad (trimChars c8WitnessInput)).1 DISCUSSION_COMPLETE_TAG = true ∧
    (parseAIResponse c8WitnessInput).spokenText =
      trimChars (finalizeSpoken
        (trimChars (removeAll DISCUSSION_COMPLETE_TAG (splitNotepad (trimChars c8WitnessInput)).1))
        (splitNotepad (trimChars c8WitnessInput)).2 true) :=
  ⟨by decide, (c8_completion_marker_scrub c8WitnessInput).2 (by decide)⟩

/-- src/constants.ts lines 82-85. -/
inductive DiscussionMode where
  | FixedTurns
  | AiDriven
deriving DecidableEq

/-- One executed discussion-loop step: the Muse first half or the Cognito
reply second half of turn pair `t`. -/
inductive DStep where
  | muse (t : ℕ)
  | cog (t : ℕ)
deriving DecidableEq

/-- Turn-pair index of a step. -/
def stepTurn : DStep → ℕ
  | .muse t => t
  | .cog t => t

/-- Whether a step is a Muse (first-half) step. -/
def isMuseStep : DStep → Bool
  | .muse _ => true
  | .cog _ => false

/-- Number of first-half (Muse) steps in a trace. -/
def museCount (tr : List DStep) : ℕ := (tr.filter isMuseStep).length

/-- Number of second-half (Cognito reply) steps in a trace. -/
def cogCount (tr : List DStep) : ℕ := (tr.filter fun st => !isMuseStep st).length

/-- The discussion loop of `handleSendMessage` (src/App.tsx lines 597-676),
abstracted over the per-turn termination signals of a successful, uncancelled
query: `s 0` is the opening Cognito turn's parsed signal, `s (2*t+1)` the
Muse signal of pair `t`, and `s (2*t+2)` the Cognito-reply signal of pair
`t`.  The result is the list of executed steps and whether the loop exited
through one of its break conditions (`true` means control proceeds to
FinalSynthesis); `fuel` bounds the unrolling, and exhausting it returns
`false` (loop still running).  The conditions, in source order: line 599
(FixedTurns turn bound), line 600 (AiDriven: latest signal ∧ the initial
response's signal ∧ turn > 0), lines 630-632 (Muse signal ∧ preceding
signal), line 639 (FixedTurns final-pair skip), lines 669-671 (Cognito-reply
signal ∧ Muse signal). -/
def mainLoop (mode : DiscussionMode) (n : ℕ) (s : ℕ → Bool) :
    ℕ → ℕ → Bool → List DStep × Bool
  | 0, _, _ => ([], false)
  | fuel + 1, turn, prev =>
    if mode = DiscussionMode.FixedTurns ∧ n ≤ turn then ([], true)
    else if mode = DiscussionMode.AiDriven ∧ prev = true ∧ s 0 = true ∧ 0 < turn then
      ([], true)
    else if mode = DiscussionMode.AiDriven ∧ s (2 * turn + 1) = true ∧ prev = true then
      ([DStep.muse turn], true)
    else if mode = DiscussionMode.FixedTurns ∧ n - 1 ≤ turn then
      ([DStep.muse turn], true)
    else if mode = DiscussionMode.AiDriven ∧ s (2 * turn + 2) = true ∧
        s (2 * turn + 1) = true then
      ([DStep.muse turn, DStep.cog turn], true)
    else
      let rest := mainLoop mode n s fuel (turn + 1) (s (2 * turn + 2))
      (DStep.muse turn :: DStep.cog turn :: rest.1, rest.2)

/-- Entry into the discussion loop from line 593: the seed signal is the
opening turn's signal, gated on AiDriven mode. -/
def runDiscussionLoop (mode : DiscussionMode) (n : ℕ) (s : ℕ → Bool) (fuel : ℕ) :
    List DStep × Bool :=
  mainLoop mode n s fuel 0 (decide (mode = DiscussionMode.AiDriven) && s 0)

/-- Signal sequence refuting C1: the opening Cognito turn signals true, Muse
turn 0 signals false, the Cognito reply of turn 0 signals true, and every
later turn signals false.  No two adjacent signals are both true. -/
def c1Signals : ℕ → Bool := fun i => i == 0 || i == 2

/-- C1: the claim says the AiDriven loop halts iff some adjacent pair of
alternating-persona signals are both true.  The code violates it: on
`c1Signals` the loop's top-of-iteration check at line 600 (previous signal ∧
the initial response's signal ∧ turn > 0) fires at turn 1 and the loop
proceeds to FinalSynthesis, although no two consecutive signals are true. -/
theorem c1_loop_halts_without_mutual_agreement :
    (runDiscussionLoop DiscussionMode.AiDriven 0 c1Signals 2).2 = true ∧
    ∀ i, ¬ (c1Signals i = true ∧ c1Signals (i + 1) = true) := by
  constructor
  · rfl
  · intro i h
    obtain ⟨h1, h2⟩ := h
    simp only [c1Signals, Bool.or_eq_true, beq_iff_eq] at h1 h2
    omega

/-- In FixedTurns mode, the loop started at `turn < n` with enough fuel
executes one Muse step per remaining pair and one Cognito reply per remaining
pair except the last, then exits through a break. -/
theorem mainLoop_fixedTurns_counts (n : ℕ) (s : ℕ → Bool) :
    ∀ fuel turn prev, turn < n → n - turn ≤ fuel →
      museCount (mainLoop DiscussionMode.FixedTurns n s fuel turn prev).1 = n - turn ∧
      cogCount (mainLoop DiscussionMode.FixedTurns n s fuel turn prev).1 = n - 1 - turn ∧
      (mainLoop DiscussionMode.FixedTurns n s fuel turn prev).2 = true := by
  intro fuel
  induction fuel with
  | zero => intro turn prev h1 h2; omega
  | succ fuel ih =>
    intro turn prev h1 h2
    rw [mainLoop]
    rw [if_neg (fun hc => absurd hc.2 (by omega))]
    rw [if_neg (fun hc => absurd hc.1 (by decide))]
    rw [if_neg (fun hc => absurd hc.1 (by decide))]
    by_cases hb : n - 1 ≤ turn
    · rw [if_pos ⟨rfl, hb⟩]
      refine ⟨?_, ?_, rfl⟩ <;> simp [museCount, cogCount, isMuseStep] <;> omega
    · rw [if_neg (fun hc => absurd hc.2 hb)]
      rw [if_neg (fun hc => absurd hc.1 (by decide))]
      obtain ⟨hm, hc, hh⟩ := ih (turn + 1) (s (2 * turn + 2)) (by omega) (by omega)
      refine ⟨?_, ?_, hh⟩ <;>
        simp [museCount, cogCount, isMuseStep, List.filter] at hm hc ⊢ <;> omega

/-- C2: in FixedTurns mode with turn count `n ≥ 1`, a successful uncancelled
query executes exactly `n` first-half (Muse) steps and exactly `n - 1`
second-half (Cognito reply) steps, and the loop exits through its break
(skipping the final pair's second half) so control proceeds directly to
FinalSynthesis. -/
theorem c2_fixed_turns_counts (n : ℕ) (hn : 1 ≤ n) (s : ℕ → Bool) :
    museCount (runDiscussionLoop DiscussionMode.FixedTurns n s n).1 = n ∧
    cogCount (runDiscussionLoop DiscussionMode.FixedTurns n s n).1 = n - 1 ∧
    (runDiscussionLoop DiscussionMode.FixedTurns n s n).2 = true := by
  have h := mainLoop_fixedTurns_counts n s n 0
    (decide (DiscussionMode.FixedTurns = DiscussionMode.AiDriven) && s 0)
    (by omega) (by omega)
  simpa [runDiscussionLoop] using h

/-- Witness for C2 at `n = 2` with all signals false: two Muse steps, one
Cognito reply, and a break to FinalSynthesis. -/
theorem c2_fixed_turns_counts_witness :
    1 ≤ 2 ∧
    (museCount (runDiscussionLoop DiscussionMode.FixedTurns 2 (fun _ => false) 2).1 = 2 ∧
     cogCount (runDiscussionLoop DiscussionMode.FixedTurns 2 (fun _ => false) 2).1 = 2 - 1 ∧
     (runDiscussionLoop DiscussionMode.FixedTurns 2 (fun _ => false) 2).2 = true) :=
  ⟨by decide, c2_fixed_turns_counts 2 (by decide) (fun _ => false)⟩

/-- Message senders, per the usages in src/App.tsx; declared in types.ts,
which is not part of src/ (the spec names them User, Logical=Cognito,
Creative=Muse, System). -/
inductive MessageSender where
  | User
  | Cognito
  | Muse
  | System
deriving DecidableEq

/-- Message purposes, per the usages in src/App.tsx; declared in types.ts,
which is not part of src/. -/
inductive MessagePurpose where
  | UserInput
  | SystemNotification
  | CognitoToMuse
  | MuseToCognito
  | FinalResponse
deriving DecidableEq

/-- Modelled from the spec: the display string of each MessageSender enum
case.  types.ts, which defines the enum's string values, is not under src/;
the values only label transcript and discussion-log lines and no claim
depends on them. -/
def senderName : MessageSender → List Char
  | .User => ("User").data
  | .Cognito => ("Cognito").data
  | .Muse => ("Muse").data
  | .System => ("System").data

/-- A discussion-log entry, built as the template `sender: text`
(src/App.tsx lines 293, 590, 626, 665). -/
def logEntry (sender : MessageSender) (text : List Char) : List Char :=
  senderName sender ++ (": ").data ++ text

/-- The image payload attached to a call
(src/App.tsx line 42: `{ inlineData: { mimeType, data } }`). -/
structure ImagePart where
  mimeType : List Char
  payload : List Char
deriving DecidableEq

/-- The four step-identifier families used by the orchestrator
(src/App.tsx: 'cognito-initial-to-muse', `muse-reply-to-cognito-turn-t`,
`cognito-reply-to-muse-turn-t`, 'cognito-final-answer').  The resume dispatch
in `continueDiscussionAfterSuccessfulRetry` distinguishes exactly these four
families (by equality or prefix test on the string); the embedded turn number
is carried by the constructor but, as in the source, the resume point is read
from `currentTurnIndexForResume`, not from the identifier. -/
inductive StepId where
  | cognitoInitial
  | museReply (t : ℕ)
  | cognitoReply (t : ℕ)
  | finalAnswer
deriving DecidableEq

/-- `FailedStepPayload` (src/App.tsx lines 37-52). -/
structure FailedStepPayload where
  stepIdentifier : StepId
  prompt : List Char
  modelName : List Char
  systemInstruction : Option (List Char)
  imageApiPart : Option ImagePart
  sender : MessageSender
  purpose : MessagePurpose
  originalSystemErrorMsgId : ℕ
  thinkingConfig : Option ℕ
  userInputForFlow : List Char
  imageApiPartForFlow : Option ImagePart
  discussionLogBeforeFailure : List (List Char)
  currentTurnIndexForResume : Option ℕ
  previousAISignaledStopForResume : Option Bool
deriving DecidableEq

/-- The discussion loop of `continueDiscussionAfterSuccessfulRetry`
(src/App.tsx lines 355-443), abstracted over the per-turn signals of the
resumed run (`ms t` / `cs t` are the Muse / Cognito-reply signals of pair
`t`).  `t0` is `initialLoopTurn`, `payloadPrev` the checkpoint's stored
`previousAISignaledStopForResume`, and `skipMuse` the
`skipMuseInFirstIteration` flag.  Conditions in source order: line 357
(FixedTurns bound), line 358 (AiDriven: current signal ∧ stored signal ∧
turn > initialLoopTurn), line 361 (skip guard), lines 389-391 (Muse
agreement), line 402 (AiDriven: current signal ∧ stored signal), line 403
(FixedTurns final-pair skip), lines 435-437 (Cognito-reply agreement). -/
def resumeLoop (mode : DiscussionMode) (n : ℕ) (payloadPrev : Bool)
    (ms cs : ℕ → Bool) (t0 : ℕ) : ℕ → ℕ → Bool → Bool → List DStep × Bool
  | 0, _, _, _ => ([], false)
  | fuel + 1, turn, prev, skipMuse =>
    if mode = DiscussionMode.FixedTurns ∧ n ≤ turn then ([], true)
    else if mode = DiscussionMode.AiDriven ∧ prev = true ∧ payloadPrev = true ∧
        t0 < turn then ([], true)
    else
      let museExecuted : Bool := !(skipMuse && turn == t0)
      let musePart : List DStep := if museExecuted = true then [DStep.muse turn] else []
      let prev1 : Bool := if museExecuted = true then ms turn else prev
      if museExecuted = true ∧ mode = DiscussionMode.AiDriven ∧ ms turn = true ∧
          prev = true then (musePart, true)
      else if mode = DiscussionMode.AiDriven ∧ prev1 = true ∧ payloadPrev = true then
        (musePart, true)
      else if mode = DiscussionMode.FixedTurns ∧ n - 1 ≤ turn then (musePart, true)
      else if mode = DiscussionMode.AiDriven ∧ cs turn = true ∧ prev1 = true then
        (musePart ++ [DStep.cog turn], true)
      else
        let rest := resumeLoop mode n payloadPrev ms cs t0 fuel (turn + 1) (cs turn) false
        (musePart ++ DStep.cog turn :: rest.1, rest.2)

/-- Result of a resumed continuation: the discussion log after appending the
retried response, and the steps executed by the re-entered loop. -/
structure ResumeRun where
  log : List (List Char)
  trace : List DStep
deriving DecidableEq

/-- `continueDiscussionAfterSuccessfulRetry` (src/App.tsx lines 282-443,
success path): append the retried response to the restored log (line 293),
recompute the signal state from the retried response (line 297), dispatch on
the failed step's identifier to the resume point (lines 315-343:
initial → turn 0, Muse turn → same turn with the first half skipped,
Cognito reply turn → next turn, final answer → return without looping), skip
the loop entirely when both stored signals already agree (lines 348-351), and
otherwise run the loop from `initialLoopTurn`. -/
def continueAfterRetry (mode : DiscussionMode) (n : ℕ) (payload : FailedStepPayload)
    (retryResponse : ParsedAIResponse) (ms cs : ℕ → Bool) (fuel : ℕ) : ResumeRun :=
  let localLog := payload.discussionLogBeforeFailure ++
    [logEntry payload.sender retryResponse.spokenText]
  let localPrev : Bool :=
    decide (mode = DiscussionMode.AiDriven) && retryResponse.discussionShouldEnd
  let payloadPrev : Bool := payload.previousAISignaledStopForResume.getD false
  let runFrom : ℕ → Bool → ResumeRun := fun t0 skipMuse =>
    if mode = DiscussionMode.AiDriven ∧ localPrev = true ∧ payloadPrev = true then
      ⟨localLog, []⟩
    else
      ⟨localLog, (resumeLoop mode n payloadPrev ms cs t0 fuel t0 localPrev skipMuse).1⟩
  match payload.stepIdentifier with
  | StepId.cognitoInitial => runFrom 0 false
  | StepId.museReply _ => runFrom (payload.currentTurnIndexForResume.getD 0) true
  | StepId.cognitoReply _ => runFrom (payload.currentTurnIndexForResume.getD 0 + 1) false
  | StepId.finalAnswer => ⟨localLog, []⟩

/-- One unfolding of the resume loop only emits the entry turn's two halves
before recursing on the next turn. -/
theorem resumeLoop_succ_mem (mode : DiscussionMode) (n : ℕ) (payloadPrev : Bool)
    (ms cs : ℕ → Bool) (t0 fuel turn : ℕ) (prev skipMuse : Bool) {st : DStep}
    (hst : st ∈ (resumeLoop mode n payloadPrev ms cs t0 (fuel + 1) turn prev skipMuse).1) :
    st = DStep.muse turn ∨ st = DStep.cog turn ∨
      st ∈ (resumeLoop mode n payloadPrev ms cs t0 fuel (turn + 1) (cs turn) false).1 := by
  rw [resumeLoop] at hst
  by_cases hb : (skipMuse && turn == t0) = true
  · simp only [hb, Bool.not_true] at hst
    split_ifs at hst <;> simp_all
  · have hb2 : (skipMuse && turn == t0) = false := by simpa using hb
    simp only [hb2, Bool.not_false] at hst
    split_ifs at hst <;> (simp_all; try tauto)

/-- Every step the resume loop executes belongs to the turn it was entered at
or a later one. -/
theorem resumeLoop_turn_le (mode : DiscussionMode) (n : ℕ) (payloadPrev : Bool)
    (ms cs : ℕ → Bool) (t0 : ℕ) :
    ∀ fuel turn prev skipMuse,
      ∀ st ∈ (resumeLoop mode n payloadPrev ms cs t0 fuel turn prev skipMuse).1,
        turn ≤ stepTurn st := by
  intro fuel
  induction fuel with
  | zero => intro turn prev skipMuse st hst; simp [resumeLoop] at hst
  | succ fuel ih =>
    intro turn prev skipMuse st hst
    rcases resumeLoop_succ_mem mode n payloadPrev ms cs t0 fuel turn prev skipMuse hst
      with h | h | h
    · subst h; simp [stepTurn]
    · subst h; simp [stepTurn]
    · have := ih (turn + 1) (cs turn) false st h
      omega

/-- When the first half is not skipped, the resume loop's trace is either
empty or starts with the Muse half of the entry turn. -/
theorem resumeLoop_head (mode : DiscussionMode) (n : ℕ) (payloadPrev : Bool)
    (ms cs : ℕ → Bool) (t0 fuel turn : ℕ) (prev : Bool) :
    (resumeLoop mode n payloadPrev ms cs t0 fuel turn prev false).1 = [] ∨
    ((resumeLoop mode n payloadPrev ms cs t0 fuel turn prev false).1).head? =
      some (DStep.muse turn) := by
  cases fuel with
  | zero => exact Or.inl rfl
  | succ fuel =>
    rw [resumeLoop]
    simp only [Bool.false_and, Bool.not_false]
    repeat' split
    all_goals first
      | exact Or.inl rfl
      | exact Or.inr rfl
      | simp_all

/-- C7: resuming a checkpoint raised during the second-half (Cognito reply)
turn of pair `k` appends the retried response to the restored discussion log
and re-enters the loop at pair `k + 1`: every step the continuation executes
belongs to pair `k + 1` or later (neither half of pair `k` is re-executed),
and when the loop executes anything at all its first step is the Muse first
half of pair `k + 1`. -/
theorem c7_resume_after_cognito_reply (mode : DiscussionMode) (n fuel k j : ℕ)
    (payload : FailedStepPayload) (retryResponse : ParsedAIResponse)
    (ms cs : ℕ → Bool)
    (hid : payload.stepIdentifier = StepId.cognitoReply j)
    (hidx : payload.currentTurnIndexForResume = some k) :
    (continueAfterRetry mode n payload retryResponse ms cs fuel).log =
      payload.discussionLogBeforeFailure ++
        [logEntry payload.sender retryResponse.spokenText] ∧
    (∀ st ∈ (continueAfterRetry mode n payload retryResponse ms cs fuel).trace,
      k + 1 ≤ stepTurn st) ∧
    ((continueAfterRetry mode n payload retryResponse ms cs fuel).trace ≠ [] →
      ((continueAfterRetry mode n payload retryResponse ms cs fuel).trace).head? =
        some (DStep.muse (k + 1))) := by
  have hrun : continueAfterRetry mode n payload retryResponse ms cs fuel =
      (if mode = DiscussionMode.AiDriven ∧
          (decide (mode = DiscussionMode.AiDriven) && retryResponse.discussionShouldEnd) = true ∧
          (payload.previousAISignaledStopForResume.getD false) = true then
        (⟨payload.discussionLogBeforeFailure ++
          [logEntry payload.sender retryResponse.spokenText], []⟩ : ResumeRun)
      else
        ⟨payload.discussionLogBeforeFailure ++
          [logEntry payload.sender retryResponse.spokenText],
         (resumeLoop mode n (payload.previousAISignaledStopForResume.getD false) ms cs
           (k + 1) fuel (k + 1)
           (decide (mode = DiscussionMode.AiDriven) && retryResponse.discussionShouldEnd)
           false).1⟩) := by
    rw [continueAfterRetry, hid, hidx]
    rfl
  rw [hrun]
  split
  · exact ⟨rfl, by intro st hst; simp at hst, fun h => absurd rfl h⟩
  · refine ⟨rfl, ?_, ?_⟩
    · intro st hst
      exact resumeLoop_turn_le mode n _ ms cs (k + 1) fuel (k + 1) _ false st hst
    · intro hne
      rcases resumeLoop_head mode n _ ms cs (k + 1) fuel (k + 1) _ with h | h
      · exact absurd h hne
      · exact h

/-- Concrete payload exercising C7: a checkpoint raised in the Cognito reply
of pair 3, resumed in FixedTurns mode with 5 turn pairs. -/
def c7WitnessPayload : FailedStepPayload :=
  { stepIdentifier := StepId.cognitoReply 3
    prompt := ("p").data
    modelName := ("gemini-2.5-flash").data
    systemInstruction := none
    imageApiPart := none
    sender := MessageSender.Cognito
    purpose := MessagePurpose.CognitoToMuse
    originalSystemErrorMsgId := 0
    thinkingConfig := none
    userInputForFlow := ("q").data
    imageApiPartForFlow := none
    discussionLogBeforeFailure := []
    currentTurnIndexForResume := some 3
    previousAISignaledStopForResume := some false }

/-- Witness for C7 at a concrete checkpoint. -/
theorem c7_resume_after_cognito_reply_witness :
    c7WitnessPayload.stepIdentifier = StepId.cognitoReply 3 ∧
    c7WitnessPayload.currentTurnIndexForResume = some 3 ∧
    ((continueAfterRetry DiscussionMode.FixedTurns 5 c7WitnessPayload
        ⟨("r").data, none, false⟩ (fun _ => false) (fun _ => false) 5).log =
      c7WitnessPayload.discussionLogBeforeFailure ++
        [logEntry c7WitnessPayload.sender ("r").data] ∧
     (∀ st ∈ (continueAfterRetry DiscussionMode.FixedTurns 5 c7WitnessPayload
        ⟨("r").data, none, false⟩ (fun _ => false) (fun _ => false) 5).trace,
       3 + 1 ≤ stepTurn st) ∧
     ((continueAfterRetry DiscussionMode.FixedTurns 5 c7WitnessPayload
        ⟨("r").data, none, false⟩ (fun _ => false) (fun _ => false) 5).trace ≠ [] →
      ((continueAfterRetry DiscussionMode.FixedTurns 5 c7WitnessPayload
        ⟨("r").data, none, false⟩ (fun _ => false) (fun _ => false) 5).trace).head? =
        some (DStep.muse (3 + 1)))) :=
  ⟨rfl, rfl,
   c7_resume_after_cognito_reply DiscussionMode.FixedTurns 5 5 3 3 c7WitnessPayload
     ⟨("r").data, none, false⟩ (fun _ => false) (fun _ => false) rfl rfl⟩

/-- Result of one `generateResponse` call as the orchestrator sees it
(text plus an optional error string; src/App.tsx tests `if (result.error)`). -/
structure GenerateResult where
  text : List Char
  error : Option (List Char)

/-- The substring that identifies an authentication-class failure
(src/App.tsx, e.g. line 562: `result.error.includes("API key not valid")`). -/
def AUTH_ERROR_MARKER : List Char := ("API key not valid").data

/-- Whether a call result carries the authentication marker. -/
def isAuthFailure (r : GenerateResult) : Bool :=
  match r.error with
  | some e => containsSub e AUTH_ERROR_MARKER
  | none => false

/-- The ambient locals a step's retry loop captures into its checkpoint; one
record unifying the four near-identical call sites (initial turn lines
557-581, Muse turn lines 609-621, Cognito reply lines 648-660, final answer
lines 690-702 of src/App.tsx). -/
structure StepContext where
  stepIdentifier : StepId
  prompt : List Char
  modelName : List Char
  systemInstruction : Option (List Char)
  imageApiPart : Option ImagePart
  sender : MessageSender
  purpose : MessagePurpose
  thinkingConfig : Option ℕ
  userInputForFlow : List Char
  imageApiPartForFlow : Option ImagePart
  discussionLogBefore : List (List Char)
  currentTurnIndex : Option ℕ
  previousSignal : Option Bool
deriving DecidableEq

/-- The checkpoint each call site builds in its `setFailedStepInfo` call on
retry-budget exhaustion, from the ambient locals and the id of the failure
notification just produced. -/
def mkCheckpoint (ctx : StepContext) (errId : ℕ) : FailedStepPayload :=
  { stepIdentifier := ctx.stepIdentifier
    prompt := ctx.prompt
    modelName := ctx.modelName
    systemInstruction := ctx.systemInstruction
    imageApiPart := ctx.imageApiPart
    sender := ctx.sender
    purpose := ctx.purpose
    originalSystemErrorMsgId := errId
    thinkingConfig := ctx.thinkingConfig
    userInputForFlow := ctx.userInputForFlow
    imageApiPartForFlow := ctx.imageApiPartForFlow
    discussionLogBeforeFailure := ctx.discussionLogBefore
    currentTurnIndexForResume := ctx.currentTurnIndex
    previousAISignaledStopForResume := ctx.previousSignal }

/-- Observable outcome of one step's retry loop. -/
structure StepExec where
  calls : ℕ
  retryNotices : ℕ
  failureNotices : ℕ
  parsed : Option ParsedAIResponse
  checkpoint : Option FailedStepPayload
  authAborted : Bool
deriving DecidableEq

/-- One step's bounded retry loop (`for attempt = 0; attempt <= MAX_AUTO_RETRIES`
in src/App.tsx, e.g. lines 557-581): a successful call is parsed and ends the
loop; an error carrying the authentication marker is thrown immediately
(escalating out of the step); any other error produces a transient retry
notice and another attempt while budget remains, and on the last attempt a
persistent failure notice plus a checkpoint built from the ambient context.
`outcomes i` is the result of the i-th call; `errId` the id the failure
notification would receive. -/
def runStepAux (ctx : StepContext) (outcomes : ℕ → GenerateResult) (errId : ℕ) :
    ℕ → ℕ → StepExec
  | 0, _ => ⟨0, 0, 0, none, none, false⟩
  | fuel + 1, attempt =>
    match (outcomes attempt).error with
    | none => ⟨1, 0, 0, some (parseAIResponse (outcomes attempt).text), none, false⟩
    | some err =>
      if containsSub err AUTH_ERROR_MARKER = true then ⟨1, 0, 0, none, none, true⟩
      else if attempt < MAX_AUTO_RETRIES then
        let rest := runStepAux ctx outcomes errId fuel (attempt + 1)
        ⟨rest.calls + 1, rest.retryNotices + 1, rest.failureNotices, rest.parsed,
         rest.checkpoint, rest.authAborted⟩
      else ⟨1, 0, 1, none, some (mkCheckpoint ctx errId), false⟩

/-- A step's retry loop, entered at attempt 0 with its full budget. -/
def runStep (ctx : StepContext) (outcomes : ℕ → GenerateResult) (errId : ℕ) : StepExec :=
  runStepAux ctx outcomes errId (MAX_AUTO_RETRIES + 1) 0

/-- C5: when the first `MAX_AUTO_RETRIES + 1` call outcomes are failures none
of which carries the authentication marker, the step makes exactly
`MAX_AUTO_RETRIES + 1` calls (no further automatic attempt), produces exactly
one persistent retry-offering failure notification, does not abort for
authentication, yields no parsed response, and raises a checkpoint capturing
the full resume state from the ambient context. -/
theorem c5_retry_exhaustion_checkpoint (ctx : StepContext)
    (outcomes : ℕ → GenerateResult) (errId : ℕ)
    (hfail : ∀ i, i ≤ MAX_AUTO_RETRIES → (outcomes i).error ≠ none)
    (hnoauth : ∀ i, i ≤ MAX_AUTO_RETRIES → isAuthFailure (outcomes i) = false) :
    (runStep ctx outcomes errId).calls = MAX_AUTO_RETRIES + 1 ∧
    (runStep ctx outcomes errId).failureNotices = 1 ∧
    (runStep ctx outcomes errId).authAborted = false ∧
    (runStep ctx outcomes errId).parsed = none ∧
    ∃ cp, (runStep ctx outcomes errId).checkpoint = some cp ∧
      cp.stepIdentifier = ctx.stepIdentifier ∧
      cp.prompt = ctx.prompt ∧
      cp.sender = ctx.sender ∧
      cp.purpose = ctx.purpose ∧
      cp.discussionLogBeforeFailure = ctx.discussionLogBefore ∧
      cp.currentTurnIndexForResume = ctx.currentTurnIndex ∧
      cp.previousAISignaledStopForResume = ctx.previousSignal ∧
      cp.userInputForFlow = ctx.userInputForFlow ∧
      cp.imageApiPartForFlow = ctx.imageApiPartForFlow := by
  have step : ∀ i, i ≤ MAX_AUTO_RETRIES → ∃ e, (outcomes i).error = some e ∧
      containsSub e AUTH_ERROR_MARKER = false := by
    intro i hi
    cases he : (outcomes i).error with
    | none => exact absurd he (hfail i hi)
    | some e =>
      refine ⟨e, rfl, ?_⟩
      have := hnoauth i hi
      rwa [isAuthFailure, he] at this
  obtain ⟨e0, he0, ha0⟩ := step 0 (by decide)
  obtain ⟨e1, he1, ha1⟩ := step 1 (by decide)
  obtain ⟨e2, he2, ha2⟩ := step 2 (by decide)
  have h2 : runStepAux ctx outcomes errId 1 2 =
      ⟨1, 0, 1, none, some (mkCheckpoint ctx errId), false⟩ := by
    rw [runStepAux, he2]
    simp [ha1, ha2, MAX_AUTO_RETRIES]
  have h1 : runStepAux ctx outcomes errId 2 1 =
      ⟨2, 1, 1, none, some (mkCheckpoint ctx errId), false⟩ := by
    rw [runStepAux, he1]
    simp [ha1, MAX_AUTO_RETRIES, h2]
  have h0 : runStep ctx outcomes errId =
      ⟨3, 2, 1, none, some (mkCheckpoint ctx errId), false⟩ := by
    rw [runStep]
    rw [show MAX_AUTO_RETRIES + 1 = 3 from rfl]
    rw [runStepAux, he0]
    simp [ha0, MAX_AUTO_RETRIES, h1]
  rw [h0]
  exact ⟨rfl, rfl, rfl, rfl, mkCheckpoint ctx errId, rfl, rfl, rfl, rfl, rfl,
    rfl, rfl, rfl, rfl, rfl⟩

/-- Concrete context for the C5 and C6 witnesses. -/
def stepContextW : StepContext :=
  { stepIdentifier := StepId.museReply 1
    prompt := ("p").data
    modelName := ("gemini-2.5-flash").data
    systemInstruction := none
    imageApiPart := none
    sender := MessageSender.Muse
    purpose := MessagePurpose.MuseToCognito
    thinkingConfig := none
    userInputForFlow := ("q").data
    imageApiPartForFlow := none
    discussionLogBefore := [("Cognito: a").data]
    currentTurnIndex := some 1
    previousSignal := some false }

/-- Outcomes for the C5 witness: every call fails without the marker. -/
def c5OutcomesW : ℕ → GenerateResult := fun _ => ⟨("boom").data, some (("boom").data)⟩

/-- Witness for C5 at a concrete context and outcome sequence. -/
theorem c5_retry_exhaustion_checkpoint_witness :
    (∀ i, i ≤ MAX_AUTO_RETRIES → (c5OutcomesW i).error ≠ none) ∧
    (∀ i, i ≤ MAX_AUTO_RETRIES → isAuthFailure (c5OutcomesW i) = false) ∧
    ((runStep stepContextW c5OutcomesW 9).calls = MAX_AUTO_RETRIES + 1 ∧
     (runStep stepContextW c5OutcomesW 9).failureNotices = 1 ∧
     (runStep stepContextW c5OutcomesW 9).authAborted = false ∧
     (runStep stepContextW c5OutcomesW 9).parsed = none ∧
     ∃ cp, (runStep stepContextW c5OutcomesW 9).checkpoint = some cp ∧
       cp.stepIdentifier = stepContextW.stepIdentifier ∧
       cp.prompt = stepContextW.prompt ∧
       cp.sender = stepContextW.sender ∧
       cp.purpose = stepContextW.purpose ∧
       cp.discussionLogBeforeFailure = stepContextW.discussionLogBefore ∧
       cp.currentTurnIndexForResume = stepContextW.currentTurnIndex ∧
       cp.previousAISignaledStopForResume = stepContextW.previousSignal ∧
       cp.userInputForFlow = stepContextW.userInputForFlow ∧
       cp.imageApiPartForFlow = stepContextW.imageApiPartForFlow) :=
  ⟨fun i _ h => Option.noConfusion h, fun i _ => rfl,
   c5_retry_exhaustion_checkpoint stepContextW c5OutcomesW 9
     (fun i _ h => Option.noConfusion h) (fun i _ => rfl)⟩

/-- A step whose call fails with the authentication marker at attempt `k`
(after `k` marker-free failures) throws immediately: `k + 1` calls in total,
no retry after the marked failure, no failure notification, no checkpoint,
no parsed result, and the auth escalation flag set. -/
theorem runStep_auth_abort (ctx : StepContext) (outcomes : ℕ → GenerateResult)
    (errId k : ℕ) (hk : k ≤ MAX_AUTO_RETRIES)
    (hpre : ∀ i, i < k → (outcomes i).error ≠ none ∧ isAuthFailure (outcomes i) = false)
    (hak : isAuthFailure (outcomes k) = true) :
    runStep ctx outcomes errId = ⟨k + 1, k, 0, none, none, true⟩ := by
  have getAuth : ∀ i, isAuthFailure (outcomes i) = true →
      ∃ e, (outcomes i).error = some e ∧ containsSub e AUTH_ERROR_MARKER = true := by
    intro i hi
    cases he : (outcomes i).error with
    | none => rw [isAuthFailure, he] at hi; exact absurd hi (by simp)
    | some e => rw [isAuthFailure, he] at hi; exact ⟨e, rfl, hi⟩
  have getFail : ∀ i, i < k → ∃ e, (outcomes i).error = some e ∧
      containsSub e AUTH_ERROR_MARKER = false := by
    intro i hi
    obtain ⟨hne, hna⟩ := hpre i hi
    cases he : (outcomes i).error with
    | none => exact absurd he hne
    | some e => rw [isAuthFailure, he] at hna; exact ⟨e, rfl, hna⟩
  rw [MAX_AUTO_RETRIES] at hk
  interval_cases k
  · obtain ⟨e0, he0, ha0⟩ := getAuth 0 hak
    rw [runStep, show MAX_AUTO_RETRIES + 1 = 3 from rfl, runStepAux, he0]
    simp [ha0]
  · obtain ⟨e0, he0, ha0⟩ := getFail 0 (by omega)
    obtain ⟨e1, he1, ha1⟩ := getAuth 1 hak
    have h1 : runStepAux ctx outcomes errId 2 1 = ⟨1, 0, 0, none, none, true⟩ := by
      rw [runStepAux, he1]
      simp [ha1]
    rw [runStep, show MAX_AUTO_RETRIES + 1 = 3 from rfl, runStepAux, he0]
    simp [ha0, MAX_AUTO_RETRIES, h1]
  · obtain ⟨e0, he0, ha0⟩ := getFail 0 (by omega)
    obtain ⟨e1, he1, ha1⟩ := getFail 1 (by omega)
    obtain ⟨e2, he2, ha2⟩ := getAuth 2 hak
    have h2 : runStepAux ctx outcomes errId 1 2 = ⟨1, 0, 0, none, none, true⟩ := by
      rw [runStepAux, he2]
      simp [ha2]
    have h1 : runStepAux ctx outcomes errId 2 1 = ⟨2, 1, 0, none, none, true⟩ := by
      rw [runStepAux, he1]
      simp [ha1, MAX_AUTO_RETRIES, h2]
    rw [runStep, show MAX_AUTO_RETRIES + 1 = 3 from rfl, runStepAux, he0]
    simp [ha0, MAX_AUTO_RETRIES, h1]

/-- Pipeline-level observable state of `handleSendMessage`: the sticky
credentials flag, the pending checkpoint, whether the query has been aborted
(every non-success path of a step either `return`s or throws into the
query-level catch), and counters for calls made and steps started. -/
structure PipelineState where
  apiKeyMissing : Bool
  failedStepInfo : Option FailedStepPayload
  aborted : Bool
  totalCalls : ℕ
  stepsStarted : ℕ
deriving DecidableEq

/-- The step sequence of one query (initial turn, loop turns, final answer)
run in order: once a step fails to produce a parsed response — checkpoint
`return`, or a thrown authentication error caught at the query level
(src/App.tsx lines 707-719, which sets the credentials flag) — no later step
runs. -/
def runPipeline : PipelineState → List (StepContext × (ℕ → GenerateResult) × ℕ) →
    PipelineState
  | st, [] => st
  | st, s :: rest =>
    if st.aborted = true then st
    else
      let ex := runStep s.1 s.2.1 s.2.2
      runPipeline
        { apiKeyMissing := st.apiKeyMissing || ex.authAborted
          failedStepInfo := match ex.checkpoint with
            | some cp => some cp
            | none => st.failedStepInfo
          aborted := ex.authAborted || ex.checkpoint.isSome || ex.parsed.isNone
          totalCalls := st.totalCalls + ex.calls
          stepsStarted := st.stepsStarted + 1 } rest

/-- An aborted pipeline runs nothing further. -/
theorem runPipeline_aborted (st : PipelineState) (h : st.aborted = true) :
    ∀ rest, runPipeline st rest = st := by
  intro rest
  cases rest with
  | nil => rfl
  | cons a t => rw [runPipeline, if_pos h]

/-- C6: a call failure carrying the authentication marker at attempt `k` of
any step is escalated immediately: the step makes `k + 1` calls (no automatic
retry follows the marked failure), the process-wide credentials-invalid flag
is set, no FailureCheckpoint is raised, and the whole query aborts — however
many steps remain after the failing one, only the failing step starts. -/
theorem c6_auth_failure_aborts_query (st : PipelineState) (ctx : StepContext)
    (outcomes : ℕ → GenerateResult) (errId k : ℕ)
    (rest : List (StepContext × (ℕ → GenerateResult) × ℕ))
    (hst : st.aborted = false)
    (hfsi : st.failedStepInfo = none)
    (hk : k ≤ MAX_AUTO_RETRIES)
    (hpre : ∀ i, i < k → (outcomes i).error ≠ none ∧ isAuthFailure (outcomes i) = false)
    (hak : isAuthFailure (outcomes k) = true) :
    (runPipeline st ((ctx, outcomes, errId) :: rest)).apiKeyMissing = true ∧
    (runPipeline st ((ctx, outcomes, errId) :: rest)).failedStepInfo = none ∧
    (runPipeline st ((ctx, outcomes, errId) :: rest)).totalCalls =
      st.totalCalls + (k + 1) ∧
    (runPipeline st ((ctx, outcomes, errId) :: rest)).stepsStarted =
      st.stepsStarted + 1 := by
  have hstep := runStep_auth_abort ctx outcomes errId k hk hpre hak
  rw [runPipeline, if_neg (by simp [hst])]
  simp only [hstep]
  rw [runPipeline_aborted _ (by simp)]
  simp [hfsi]

/-- Outcomes for the C6 witness: the very first call fails with the marker. -/
def c6OutcomesW : ℕ → GenerateResult :=
  fun _ => ⟨("bad key").data, some (("API key not valid").data)⟩

/-- Witness for C6 at a concrete pipeline: the marked failure on the first
attempt of the first step aborts before the one remaining step. -/
theorem c6_auth_failure_aborts_query_witness :
    (⟨false, none, false, 0, 0⟩ : PipelineState).aborted = false ∧
    (⟨false, none, false, 0, 0⟩ : PipelineState).failedStepInfo = none ∧
    0 ≤ MAX_AUTO_RETRIES ∧
    isAuthFailure (c6OutcomesW 0) = true ∧
    ((runPipeline ⟨false, none, false, 0, 0⟩
        [(stepContextW, c6OutcomesW, 0), (stepContextW, c5OutcomesW, 1)]).apiKeyMissing = true ∧
     (runPipeline ⟨false, none, false, 0, 0⟩
        [(stepContextW, c6OutcomesW, 0), (stepContextW, c5OutcomesW, 1)]).failedStepInfo = none ∧
     (runPipeline ⟨false, none, false, 0, 0⟩
        [(stepContextW, c6OutcomesW, 0), (stepContextW, c5OutcomesW, 1)]).totalCalls =
       (⟨false, none, false, 0, 0⟩ : PipelineState).totalCalls + (0 + 1) ∧
     (runPipeline ⟨false, none, false, 0, 0⟩
        [(stepContextW, c6OutcomesW, 0), (stepContextW, c5OutcomesW, 1)]).stepsStarted =
       (⟨false, none, false, 0, 0⟩ : PipelineState).stepsStarted + 1) :=
  ⟨rfl, rfl, by decide, by decide,
   c6_auth_failure_aborts_query ⟨false, none, false, 0, 0⟩ stepContextW c6OutcomesW 0 0
     [(stepContextW, c5OutcomesW, 1)] rfl rfl (by decide)
     (fun i hi => absurd hi (Nat.not_lt_zero i)) (by decide)⟩

/-- One transcript message: its generated id and its text
(the other `ChatMessage` fields play no role in the retry bookkeeping). -/
structure MessageRec where
  id : ℕ
  text : List Char
deriving DecidableEq

/-- The App state touched by `handleManualRetry` (src/App.tsx): the message
list, the pending checkpoint, the credentials flag, the notepad, and a fresh
id supply modelling `generateUniqueId` (ids are unique and increasing). -/
structure AppState where
  messages : List MessageRec
  failedStepInfo : Option FailedStepPayload
  apiKeyMissing : Bool
  notepadContent : List Char
  lastNotepadUpdateBy : Option MessageSender
  nextId : ℕ
deriving DecidableEq

/-- `addMessage` (src/App.tsx lines 135-153): append a message under a fresh
id and return the id. -/
def addMessage (st : AppState) (text : List Char) : AppState × ℕ :=
  ({ st with messages := st.messages ++ [⟨st.nextId, text⟩], nextId := st.nextId + 1 },
   st.nextId)

/-- The string form of a step identifier (src/App.tsx lines 550, 603, 642,
685). -/
def stepIdText : StepId → List Char
  | .cognitoInitial => ("cognito-initial-to-muse").data
  | .museReply t => ("muse-reply-to-cognito-turn-").data ++ (Nat.repr t).data
  | .cognitoReply t => ("cognito-reply-to-muse-turn-").data ++ (Nat.repr t).data
  | .finalAnswer => ("cognito-final-answer").data

/-- The notice added when a manual retry starts (src/App.tsx lines 751-755). -/
def manualRetryNotice (p : FailedStepPayload) : List Char :=
  ("[").data ++ senderName p.sender ++ (" - ").data ++ stepIdText p.stepIdentifier ++
    ("] 正在手动重试...").data

/-- The persistent notice added when a manual retry fails
(src/App.tsx lines 796-800); the thrown error's message is `result.text`. -/
def manualRetryFailureNotice (p : FailedStepPayload) (errMsg : List Char) : List Char :=
  ("[").data ++ senderName p.sender ++ (" - ").data ++ stepIdText p.stepIdentifier ++
    ("] 手动重试失败: ").data ++ errMsg ++ (". 您可以再次尝试。").data

/-- The notice added when a manual retry succeeds (src/App.tsx line 781). -/
def manualRetrySuccessNotice (p : FailedStepPayload) : List Char :=
  ("[").data ++ senderName p.sender ++ (" - ").data ++ stepIdText p.stepIdentifier ++
    ("] 手动重试成功。后续流程将继续。").data

/-- `handleManualRetry` (src/App.tsx lines 739-822) up to the hand-off to
`continueDiscussionAfterSuccessfulRetry` (modelled separately by
`continueAfterRetry`): remove the checkpoint's failure notification, announce
the retry, re-issue the stored call; on cancellation the catch does nothing;
on an error, flag authentication failures, add a new failure notice, and keep
the checkpoint alive re-pointed at that notice; on success, post the parsed
response, apply any notepad update attributed to the stored sender, announce
success, and clear the checkpoint. -/
def handleManualRetry (st : AppState) (stepToRetry : FailedStepPayload)
    (result : GenerateResult) (cancelled : Bool) : AppState :=
  let keep : MessageRec → Bool := fun m => m.id != stepToRetry.originalSystemErrorMsgId
  let st1 := { st with messages := st.messages.filter keep }
  let st2 := (addMessage st1 (manualRetryNotice stepToRetry)).1
  if cancelled = true then st2
  else
    match result.error with
    | some err =>
      let auth := containsSub err AUTH_ERROR_MARKER
      let st3 := if auth = true then { st2 with apiKeyMissing := true } else st2
      let add4 := addMessage st3 (manualRetryFailureNotice stepToRetry result.text)
      let st5 := if auth = true then { add4.1 with apiKeyMissing := true } else add4.1
      let repointed := { stepToRetry with originalSystemErrorMsgId := add4.2 }
      { st5 with failedStepInfo := some repointed }
    | none =>
      let parsed := parseAIResponse result.text
      let st3 := (addMessage st2 parsed.spokenText).1
      let st4 := match parsed.newNotepadContent with
        | some c => { st3 with notepadContent := c, lastNotepadUpdateBy := some stepToRetry.sender }
        | none => st3
      let st5 := (addMessage st4 (manualRetrySuccessNotice stepToRetry)).1
      { st5 with failedStepInfo := none }

/-- C9: when a manual retry's call fails without the authentication marker
and without cancellation, the checkpoint is kept alive with every stored field
unchanged except the notification id: the new checkpoint equals the old one
re-pointed at the id of the newest (last) message — the fresh failure
notification — and no message with the old notification id remains, so
repeated retries do not accumulate duplicate notifications. -/
theorem c9_resume_failure_repoints_checkpoint (st : AppState)
    (stepToRetry : FailedStepPayload) (result : GenerateResult) (err : List Char)
    (herr : result.error = some err)
    (hnoauth : containsSub err AUTH_ERROR_MARKER = false)
    (hid : stepToRetry.originalSystemErrorMsgId < st.nextId) :
    ∃ cp, (handleManualRetry st stepToRetry result false).failedStepInfo = some cp ∧
      cp.stepIdentifier = stepToRetry.stepIdentifier ∧
      cp.prompt = stepToRetry.prompt ∧
      cp.modelName = stepToRetry.modelName ∧
      cp.systemInstruction = stepToRetry.systemInstruction ∧
      cp.imageApiPart = stepToRetry.imageApiPart ∧
      cp.sender = stepToRetry.sender ∧
      cp.purpose = stepToRetry.purpose ∧
      cp.thinkingConfig = stepToRetry.thinkingConfig ∧
      cp.userInputForFlow = stepToRetry.userInputForFlow ∧
      cp.imageApiPartForFlow = stepToRetry.imageApiPartForFlow ∧
      cp.discussionLogBeforeFailure = stepToRetry.discussionLogBeforeFailure ∧
      cp.currentTurnIndexForResume = stepToRetry.currentTurnIndexForResume ∧
      cp.previousAISignaledStopForResume = stepToRetry.previousAISignaledStopForResume ∧
      cp.originalSystemErrorMsgId ≠ stepToRetry.originalSystemErrorMsgId ∧
      ((handleManualRetry st stepToRetry result false).messages.getLast?).map
        MessageRec.id = some cp.originalSystemErrorMsgId ∧
      ∀ m ∈ (handleManualRetry st stepToRetry result false).messages,
        m.id ≠ stepToRetry.originalSystemErrorMsgId := by
  have hrun : handleManualRetry st stepToRetry result false =
      { messages := (st.messages.filter
          (fun m => m.id != stepToRetry.originalSystemErrorMsgId)) ++
          [⟨st.nextId, manualRetryNotice stepToRetry⟩,
           ⟨st.nextId + 1, manualRetryFailureNotice stepToRetry result.text⟩]
        failedStepInfo := some { stepToRetry with originalSystemErrorMsgId := st.nextId + 1 }
        apiKeyMissing := st.apiKeyMissing
        notepadContent := st.notepadContent
        lastNotepadUpdateBy := st.lastNotepadUpdateBy
        nextId := st.nextId + 2 } := by
    rw [handleManualRetry, herr]
    simp [addMessage, hnoauth]
  refine ⟨{ stepToRetry with originalSystemErrorMsgId := st.nextId + 1 },
    by rw [hrun], rfl, rfl, rfl, rfl, rfl, rfl, rfl, rfl, rfl, rfl, rfl, rfl, rfl,
    by simp; omega, ?_, ?_⟩
  · rw [hrun]
    have hsplit : (st.messages.filter
          (fun m => m.id != stepToRetry.originalSystemErrorMsgId)) ++
          [(⟨st.nextId, manualRetryNotice stepToRetry⟩ : MessageRec),
           ⟨st.nextId + 1, manualRetryFailureNotice stepToRetry result.text⟩] =
        ((st.messages.filter (fun m => m.id != stepToRetry.originalSystemErrorMsgId)) ++
          [⟨st.nextId, manualRetryNotice stepToRetry⟩]) ++
          [⟨st.nextId + 1, manualRetryFailureNotice stepToRetry result.text⟩] := by
      simp
    rw [hsplit]
    simp [List.getLast?_concat]
  · rw [hrun]
    intro m hm
    rcases List.mem_append.mp hm with h | h
    · have := List.of_mem_filter h
      simpa using this
    · rcases List.mem_cons.mp h with h2 | h2
      · subst h2; simp; omega
      · rcases List.mem_cons.mp h2 with h3 | h3
        · subst h3; simp; omega
        · simp at h3

/-- App state for the C9 witness: one stale failure notification with id 3
(the checkpoint points at it) and fresh ids from 5. -/
def c9StateW : AppState :=
  { messages := [⟨3, ("previous failure notice").data⟩]
    failedStepInfo := some { c7WitnessPayload with originalSystemErrorMsgId := 3 }
    apiKeyMissing := false
    notepadContent := ("np").data
    lastNotepadUpdateBy := none
    nextId := 5 }

/-- Payload for the C9 witness: the checkpoint being retried, pointing at the
stale notification. -/
def c9PayloadW : FailedStepPayload :=
  { c7WitnessPayload with originalSystemErrorMsgId := 3 }

/-- Witness for C9 at a concrete state, checkpoint and failing call. -/
theorem c9_resume_failure_repoints_checkpoint_witness :
    (⟨("errtext").data, some (("socket hang up").data)⟩ : GenerateResult).error =
      some (("socket hang up").data) ∧
    containsSub (("socket hang up").data) AUTH_ERROR_MARKER = false ∧
    c9PayloadW.originalSystemErrorMsgId < c9StateW.nextId ∧
    (∃ cp, (handleManualRetry c9StateW c9PayloadW
        ⟨("errtext").data, some (("socket hang up").data)⟩ false).failedStepInfo = some cp ∧
      cp.stepIdentifier = c9PayloadW.stepIdentifier ∧
      cp.prompt = c9PayloadW.prompt ∧
      cp.modelName = c9PayloadW.modelName ∧
      cp.systemInstruction = c9PayloadW.systemInstruction ∧
      cp.imageApiPart = c9PayloadW.imageApiPart ∧
      cp.sender = c9PayloadW.sender ∧
      cp.purpose = c9PayloadW.purpose ∧
      cp.thinkingConfig = c9PayloadW.thinkingConfig ∧
      cp.userInputForFlow = c9PayloadW.userInputForFlow ∧
      cp.imageApiPartForFlow = c9PayloadW.imageApiPartForFlow ∧
      cp.discussionLogBeforeFailure = c9PayloadW.discussionLogBeforeFailure ∧
      cp.currentTurnIndexForResume = c9PayloadW.currentTurnIndexForResume ∧
      cp.previousAISignaledStopForResume = c9PayloadW.previousAISignaledStopForResume ∧
      cp.originalSystemErrorMsgId ≠ c9PayloadW.originalSystemErrorMsgId ∧
      ((handleManualRetry c9StateW c9PayloadW
          ⟨("errtext").data, some (("socket hang up").data)⟩ false).messages.getLast?).map
        MessageRec.id = some cp.originalSystemErrorMsgId ∧
      ∀ m ∈ (handleManualRetry c9StateW c9PayloadW
          ⟨("errtext").data, some (("socket hang up").data)⟩ false).messages,
        m.id ≠ c9PayloadW.originalSystemErrorMsgId) :=
  ⟨rfl, by decide, by decide,
   c9_resume_failure_repoints_checkpoint c9StateW c9PayloadW
     ⟨("errtext").data, some (("socket hang up").data)⟩ (("socket hang up").data)
     rfl (by decide) (by decide)⟩

end DualAIChat
